import Mathlib

/-!
Verification development for the BN-OI-SCAN open-interest surveillance loop
(`src/main.py`).  The Python source is shallowly embedded: pure data
manipulation becomes Lean functions over `ℚ` (exact rational idealisation of
Python floats), dictionaries become association lists (`List (Sym × _)` with
`List.lookup`), fallible code (Python exceptions) returns `Except Unit _`,
and the per-symbol network fetches are parameterised by an oracle describing
each outbound call's outcome.  The `asyncio.Semaphore(15)` fan-out is
modelled as a counting-state transition system.
-/

namespace BNOI

attribute [local semireducible] Rat.mul Rat.add Rat.sub Rat.inv

/-- Exchange symbol identifiers (Python `str`). -/
abbrev Sym := String

/-- `CHECK_INTERVAL = 45` (seconds between the two snapshots). -/
def CHECK_INTERVAL : ℕ := 45

/-- `OI_THRESHOLD = 5` (minimum open-interest change percent). -/
def OI_THRESHOLD : ℚ := 5

/-- `PRICE_THRESHOLD = 1.2` (maximum absolute price change percent). -/
def PRICE_THRESHOLD : ℚ := 12/10

/-- Error-backoff sleep on a cycle-level exception (`await asyncio.sleep(10)`). -/
def ERROR_BACKOFF : ℕ := 10

/-- `asyncio.Semaphore(15)`: the concurrency cap of the open-interest fan-out. -/
def MAX_CONCURRENT : ℕ := 15

/-! ## Bulk fetchers (`get_all_prices`, `get_funding_rates`) -/

/-- One element of the `/fapi/v1/ticker/price` JSON array, as consumed by
`get_all_prices` (`item['symbol']`, `float(item['price'])`). -/
structure PriceItem where
  symbol : Sym
  price : ℚ
deriving DecidableEq, Repr

/-- Outcome of the bulk price HTTP call.  `netError` models an exception
raised by `requests.get`; `response status body` models a completed HTTP
response, where `body = none` means the JSON body is not a well-formed list
of price items (so iterating the dict comprehension raises). -/
inductive PriceFetch
  | netError
  | response (status : ℕ) (body : Option (List PriceItem))
deriving DecidableEq, Repr

/-- `get_all_prices` (src/main.py lines 47-51): builds
`{item['symbol']: float(item['price'])}` from the response body inside a
bare `try`, returning `{}` on any exception.  The HTTP status code is never
consulted. -/
def get_all_prices (r : PriceFetch) : List (Sym × ℚ) :=
  match r with
  | .netError => []
  | .response _ body =>
    match body with
    | some items => items.map (fun it => (it.symbol, it.price))
    | none => []

/-- One element of the `/fapi/v1/premiumIndex` JSON array;
`lastFundingRate = none` models an item without a `'lastFundingRate'` key
(filtered out by the comprehension's `if` clause). -/
structure PremiumIndexItem where
  symbol : Sym
  lastFundingRate : Option ℚ
deriving DecidableEq, Repr

/-- Outcome of the bulk funding-rate HTTP call, as for `PriceFetch`. -/
inductive FundingFetch
  | netError
  | response (status : ℕ) (body : Option (List PremiumIndexItem))
deriving DecidableEq, Repr

/-- `get_funding_rates` (src/main.py lines 53-59).  On an exception the
`except` arm returns `{}`; on a 200 response the comprehension keeps items
that carry `'lastFundingRate'` (a parse failure raises, landing in the
`except` arm); on a non-200 response the function body falls through with no
`return` statement, so Python returns `None` — modelled as `none`, while a
returned dict is `some` of the association list. -/
def get_funding_rates (r : FundingFetch) : Option (List (Sym × ℚ)) :=
  match r with
  | .netError => some []
  | .response status body =>
    if status = 200 then
      match body with
      | some items =>
        some (items.filterMap (fun it => it.lastFundingRate.map (fun v => (it.symbol, v))))
      | none => some []
    else none

/-! ## Bounded open-interest collector (`fetch_open_interest`, `get_all_open_interest`) -/

/-- Outcome of one `GET /fapi/v1/openInterest?symbol=S` call.  `netError`
models an exception inside the `try`; `response status oi` a completed
response, where `oi = none` means the `'openInterest'` field is missing or
not parseable as a float (the raised exception is swallowed by `except`). -/
inductive OIFetch
  | netError
  | response (status : ℕ) (oi : Option ℚ)
deriving DecidableEq, Repr

/-- `fetch_open_interest` (src/main.py lines 61-70), with the network
abstracted as an oracle from symbol to call outcome: returns
`(symbol, float(data['openInterest']))` on a well-formed 200 response and
`(symbol, None)` on every failure path. -/
def fetch_open_interest (oracle : Sym → OIFetch) (symbol : Sym) : Sym × Option ℚ :=
  match oracle symbol with
  | .netError => (symbol, none)
  | .response status oi =>
    if status = 200 then
      match oi with
      | some v => (symbol, some v)
      | none => (symbol, none)
    else (symbol, none)

/-- A per-symbol fetch outcome that resolves the symbol to absent. -/
def fetchFailed (o : OIFetch) : Prop :=
  match o with
  | .netError => True
  | .response status oi => status ≠ 200 ∨ oi = none

instance (o : OIFetch) : Decidable (fetchFailed o) := by
  unfold fetchFailed; cases o <;> infer_instance

/-- `get_all_open_interest` (src/main.py lines 72-77): gathers every
per-symbol task and builds `dict(results)`.  The returned association list
keeps one pair per input symbol, in input order. -/
def get_all_open_interest (oracle : Sym → OIFetch) (symbols : List Sym) :
    List (Sym × Option ℚ) :=
  symbols.map (fetch_open_interest oracle)

/-! ### Semaphore discipline of the fan-out

`get_all_open_interest` launches one task per symbol; each task executes
`async with semaphore:` around its fetch.  The interleaving of the tasks is
modelled by a transition system counting how many tasks are waiting before
the semaphore, currently inside it (an outstanding fetch), or finished, plus
the semaphore's free-permit counter (initially `MAX_CONCURRENT`). -/

/-- Global state of the fan-out: task counts plus the semaphore counter. -/
structure CollectorState where
  waiting : ℕ
  fetching : ℕ
  finished : ℕ
  permits : ℕ
deriving DecidableEq, Repr

/-- Initial state for `n` symbols: all tasks before the `async with`,
semaphore full at `MAX_CONCURRENT`. -/
def initCollector (n : ℕ) : CollectorState :=
  ⟨n, 0, 0, MAX_CONCURRENT⟩

/-- One scheduler step of the fan-out: a waiting task acquires a free permit
and starts its fetch, or a fetching task completes and releases its permit. -/
inductive CollectorStep : CollectorState → CollectorState → Prop
  | acquire {w f d p : ℕ} (hw : 0 < w) (hp : 0 < p) :
      CollectorStep ⟨w, f, d, p⟩ ⟨w - 1, f + 1, d, p - 1⟩
  | release {w f d p : ℕ} (hf : 0 < f) :
      CollectorStep ⟨w, f, d, p⟩ ⟨w, f - 1, d + 1, p + 1⟩

/-- States reachable during a fan-out over `n` symbols. -/
inductive CollectorReachable (n : ℕ) : CollectorState → Prop
  | init : CollectorReachable n (initCollector n)
  | step {σ τ : CollectorState} :
      CollectorReachable n σ → CollectorStep σ τ → CollectorReachable n τ

/-! ## Detector data model -/

/-- Python `dict.get(s)` on the open-interest mapping: `none` when the key
is absent or stored as `None`. -/
def oiGet (m : List (Sym × Option ℚ)) (s : Sym) : Option ℚ :=
  (m.lookup s).bind id

/-- Python truthiness of `m.get(s)`: the guard `not m.get(s)` skips a symbol
whose open interest is absent, `None`, or exactly `0.0`; this returns the
value when the guard passes it. -/
def oiTruthy (m : List (Sym × Option ℚ)) (s : Sym) : Option ℚ :=
  match oiGet m s with
  | some v => if v = 0 then none else some v
  | none => none

/-- Python float division: raises `ZeroDivisionError` on a zero
denominator, modelled as `Except.error`. -/
def pydiv (a b : ℚ) : Except Unit ℚ :=
  if b = 0 then .error () else .ok (a / b)

/-- The Python built-in `abs` on floats. -/
def pyabs (x : ℚ) : ℚ :=
  if x < 0 then -x else x

/-- The three direction labels of src/main.py line 123. -/
inductive Direction
  | bullish
  | bearish
  | flat
deriving DecidableEq, Repr

/-- Direction classification (src/main.py line 123):
`"資金建多" if prc_chg > 0.3 else "資金建空" if prc_chg < -0.3 else "橫盤吸籌"`. -/
def classifyDirection (prcChg : ℚ) : Direction :=
  if prcChg > 3/10 then .bullish
  else if prcChg < -(3/10) then .bearish
  else .flat

/-- One anomaly embed appended at src/main.py lines 126-135, keeping the
numeric payload and direction. -/
structure AnomalyRecord where
  symbol : Sym
  oiChangePct : ℚ
  priceChangePct : ℚ
  funding : ℚ
  direction : Direction
deriving DecidableEq, Repr

/-- The body of the detection loop for a single symbol (src/main.py lines
113-135): skip (`.ok none`) when the guard of line 114 fires; otherwise
compute both change percentages — each division may raise — and emit a
record exactly when line 121's threshold test holds. -/
def processSymbol (prev_prices curr_prices funding_rates : List (Sym × ℚ))
    (prev_oi curr_oi : List (Sym × Option ℚ)) (s : Sym) :
    Except Unit (Option AnomalyRecord) :=
  match prev_prices.lookup s, curr_prices.lookup s, oiTruthy prev_oi s, oiTruthy curr_oi s with
  | some pp, some cp, some po, some co =>
    match pydiv (co - po) po with
    | .error e => .error e
    | .ok q1 =>
      let oiChg := q1 * 100
      match pydiv (cp - pp) pp with
      | .error e => .error e
      | .ok q2 =>
        let prcChg := q2 * 100
        let funding := (funding_rates.lookup s).getD 0
        if oiChg > OI_THRESHOLD ∧ pyabs prcChg < PRICE_THRESHOLD then
          .ok (some ⟨s, oiChg, prcChg, funding, classifyDirection prcChg⟩)
        else
          .ok none
  | _, _, _, _ => .ok none

/-- The detection loop (src/main.py lines 112-135) traversing the symbol
list and accumulating `embeds`; an exception raised for any symbol escapes
the loop immediately. -/
def detectFrom (prev_prices curr_prices funding_rates : List (Sym × ℚ))
    (prev_oi curr_oi : List (Sym × Option ℚ)) :
    List AnomalyRecord → List Sym → Except Unit (List AnomalyRecord)
  | acc, [] => .ok acc
  | acc, s :: rest =>
    match processSymbol prev_prices curr_prices funding_rates prev_oi curr_oi s with
    | .error e => .error e
    | .ok none => detectFrom prev_prices curr_prices funding_rates prev_oi curr_oi acc rest
    | .ok (some r) =>
      detectFrom prev_prices curr_prices funding_rates prev_oi curr_oi (acc ++ [r]) rest

/-- The whole detection pass, starting from `embeds = []`. -/
def detect (symbols : List Sym) (prev_prices curr_prices funding_rates : List (Sym × ℚ))
    (prev_oi curr_oi : List (Sym × Option ℚ)) : Except Unit (List AnomalyRecord) :=
  detectFrom prev_prices curr_prices funding_rates prev_oi curr_oi [] symbols

/-! ## History persistence and alert dispatch -/

/-- One row of `binance_oi_data_history.csv`
(`symbol, price, oi, funding, phase, timestamp`). -/
structure HistoryRow where
  symbol : Sym
  price : ℚ
  oi : ℚ
  funding : ℚ
  phase : String
  timestamp : String
deriving DecidableEq, Repr

/-- The `data_start` comprehension (src/main.py lines 101-104) together
with `save_to_csv`'s timestamp column: one row per symbol that is a key of
`prev_prices` and whose `prev_oi.get(s)` is truthy, tagged `'start'`. -/
def data_start (symbols : List Sym) (prev_prices : List (Sym × ℚ))
    (prev_oi : List (Sym × Option ℚ)) (funding_rates : List (Sym × ℚ))
    (timestamp : String) : List HistoryRow :=
  (symbols.filter
      (fun s => (prev_prices.lookup s).isSome && (oiTruthy prev_oi s).isSome)).map
    (fun s =>
      ⟨s, (prev_prices.lookup s).getD 0, (oiTruthy prev_oi s).getD 0,
        (funding_rates.lookup s).getD 0, "start", timestamp⟩)

/-- The alert dispatch (src/main.py lines 137-139): `none` when `embeds` is
empty (no outbound call); otherwise one call posting `embeds[:10]`. -/
def dispatch (embeds : List AnomalyRecord) : Option (List AnomalyRecord) :=
  if embeds.isEmpty then none else some (embeds.take 10)

deriving instance DecidableEq for Except

/-- Observable result of one cycle body: the rows appended to the history
CSV during the cycle, and either the detection/dispatch outcome or the
exception that aborted the cycle. -/
structure CycleResult where
  savedRows : List HistoryRow
  outcome : Except Unit (List AnomalyRecord × Option (List AnomalyRecord))
deriving DecidableEq, Repr

/-- One iteration of the `while True` body (src/main.py lines 92-141), the
five fetched mappings being inputs: persist the start-snapshot rows, sleep,
then detect and dispatch.  No further `save_to_csv` call occurs after the
end snapshot. -/
def runCycle (symbols : List Sym) (prev_prices : List (Sym × ℚ))
    (prev_oi : List (Sym × Option ℚ)) (funding_rates : List (Sym × ℚ))
    (curr_prices : List (Sym × ℚ)) (curr_oi : List (Sym × Option ℚ))
    (start_time : String) : CycleResult :=
  let rows := data_start symbols prev_prices prev_oi funding_rates start_time
  match detect symbols prev_prices curr_prices funding_rates prev_oi curr_oi with
  | .error e => ⟨rows, .error e⟩
  | .ok embeds => ⟨rows, .ok (embeds, dispatch embeds)⟩

/-- What the scheduler loop does with a finished cycle body (src/main.py
lines 141-145): log completion, or catch the exception and back off. -/
inductive SchedOutcome
  | completed (dispatched : Option (List AnomalyRecord))
  | errorBackoff (seconds : ℕ)
deriving DecidableEq, Repr

/-- The `try`/`except` of the scheduler loop: a cycle-level exception is
logged and followed by `await asyncio.sleep(10)`. -/
def schedulerStep (c : CycleResult) : SchedOutcome :=
  match c.outcome with
  | .ok (_, d) => .completed d
  | .error _ => .errorBackoff ERROR_BACKOFF

/-! ## Concrete sample cycle (the end-to-end scenario of spec §8) -/

/-- Sample universe: two symbols. -/
def exSymbols : List Sym := ["BTCUSDT", "ETHUSDT"]

/-- Sample start-snapshot prices. -/
def exPrevPrices : List (Sym × ℚ) := [("BTCUSDT", 100), ("ETHUSDT", 50)]

/-- Sample end-snapshot prices. -/
def exCurrPrices : List (Sym × ℚ) := [("BTCUSDT", 201/2), ("ETHUSDT", 55)]

/-- Sample start-snapshot open interest. -/
def exPrevOi : List (Sym × Option ℚ) := [("BTCUSDT", some 1000), ("ETHUSDT", some 500)]

/-- Sample end-snapshot open interest. -/
def exCurrOi : List (Sym × Option ℚ) := [("BTCUSDT", some 1060), ("ETHUSDT", some 510)]

/-- Sample funding rates. -/
def exFunding : List (Sym × ℚ) := [("BTCUSDT", 1/10000), ("ETHUSDT", 0)]

/-- The anomaly record the sample cycle emits for BTCUSDT:
open interest +6%, price +0.5%, bullish direction. -/
def exRecord : AnomalyRecord := ⟨"BTCUSDT", 6, 1/2, 1/10000, .bullish⟩

/-- Start-snapshot prices where BTCUSDT is listed with price exactly `0.0`. -/
def exPrevPricesZero : List (Sym × ℚ) := [("BTCUSDT", 0), ("ETHUSDT", 50)]

/-- A sample fetch oracle: BTCUSDT succeeds, every other symbol's call
raises a network error. -/
def exOracle : Sym → OIFetch :=
  fun s => if s = "BTCUSDT" then .response 200 (some 1000) else .netError

example :
    processSymbol exPrevPrices exCurrPrices exFunding exPrevOi exCurrOi "BTCUSDT" =
      .ok (some exRecord) := by decide

example :
    processSymbol exPrevPrices exCurrPrices exFunding exPrevOi exCurrOi "ETHUSDT" =
      .ok none := by decide

example :
    detect exSymbols exPrevPrices exCurrPrices exFunding exPrevOi exCurrOi =
      .ok [exRecord] := by decide

example :
    processSymbol exPrevPricesZero exCurrPrices exFunding exPrevOi exCurrOi "BTCUSDT" =
      .error () := by decide

example :
    (runCycle exSymbols exPrevPrices exPrevOi exFunding exCurrPrices exCurrOi "t0").savedRows =
      [⟨"BTCUSDT", 100, 1000, 1/10000, "start", "t0"⟩,
       ⟨"ETHUSDT", 50, 500, 0, "start", "t0"⟩] := by decide

/-! ## Helper lemmas -/

theorem oiTruthy_ne_zero {m : List (Sym × Option ℚ)} {s : Sym} {v : ℚ}
    (h : oiTruthy m s = some v) : v ≠ 0 := by
  unfold oiTruthy at h
  cases hg : oiGet m s with
  | none => rw [hg] at h; exact absurd h (by simp)
  | some w =>
    rw [hg] at h
    dsimp only at h
    by_cases hw : w = 0
    · rw [if_pos hw] at h; exact absurd h (by simp)
    · rw [if_neg hw] at h
      rw [← Option.some.inj h]
      exact hw

theorem oiTruthy_eq_none {m : List (Sym × Option ℚ)} {s : Sym}
    (h : oiGet m s = none) : oiTruthy m s = none := by
  unfold oiTruthy
  rw [h]

/-- `pyabs` agrees with the mathematical absolute value on `ℚ`. -/
theorem pyabs_eq_abs (x : ℚ) : pyabs x = |x| := by
  unfold pyabs
  by_cases hx : x < 0
  · rw [if_pos hx, abs_of_neg hx]
  · rw [if_neg hx, abs_of_nonneg (le_of_not_lt hx)]

/-- When every per-symbol lookup of the line-114 guard succeeds, the body of
the detection loop reduces to the threshold test of line 121. -/
theorem processSymbol_eq_ite (prev_prices curr_prices funding_rates : List (Sym × ℚ))
    (prev_oi curr_oi : List (Sym × Option ℚ)) {s : Sym} {pp cp po co : ℚ}
    (hpp : prev_prices.lookup s = some pp) (hcp : curr_prices.lookup s = some cp)
    (hpo : oiTruthy prev_oi s = some po) (hco : oiTruthy curr_oi s = some co)
    (hppz : pp ≠ 0) :
    processSymbol prev_prices curr_prices funding_rates prev_oi curr_oi s =
      if (co - po) / po * 100 > OI_THRESHOLD ∧
          pyabs ((cp - pp) / pp * 100) < PRICE_THRESHOLD then
        .ok (some ⟨s, (co - po) / po * 100, (cp - pp) / pp * 100,
          (funding_rates.lookup s).getD 0,
          classifyDirection ((cp - pp) / pp * 100)⟩)
      else
        .ok none := by
  have hpoz : po ≠ 0 := oiTruthy_ne_zero hpo
  unfold processSymbol
  rw [hpp, hcp, hpo, hco]
  dsimp only
  unfold pydiv
  rw [if_neg hpoz, if_neg hppz]

/-! ## Claims about the anomaly detector -/

/-- C1: for a symbol of the universe with a price in both price mappings
(the start price giving a well-defined denominator; the zero-denominator
case is claim C10's) and a non-absent, non-zero open interest in both
snapshots, the detector computes
`oiChangePct = (curr.oi - prev.oi) / prev.oi * 100` and
`priceChangePct = (curr.price - prev.price) / prev.price * 100`, and an
`AnomalyRecord` is emitted for the symbol iff `oiChangePct > OI_THRESHOLD`
and `abs priceChangePct < PRICE_THRESHOLD` (both configuration
constants). -/
theorem detector_formulas_and_emission
    (prev_prices curr_prices funding_rates : List (Sym × ℚ))
    (prev_oi curr_oi : List (Sym × Option ℚ)) (s : Sym) (pp cp po co : ℚ)
    (hpp : prev_prices.lookup s = some pp) (hcp : curr_prices.lookup s = some cp)
    (hpo : oiTruthy prev_oi s = some po) (hco : oiTruthy curr_oi s = some co)
    (hppz : pp ≠ 0) :
    ((co - po) / po * 100 > OI_THRESHOLD ∧
        pyabs ((cp - pp) / pp * 100) < PRICE_THRESHOLD →
      processSymbol prev_prices curr_prices funding_rates prev_oi curr_oi s =
        .ok (some ⟨s, (co - po) / po * 100, (cp - pp) / pp * 100,
          (funding_rates.lookup s).getD 0,
          classifyDirection ((cp - pp) / pp * 100)⟩)) ∧
    (¬((co - po) / po * 100 > OI_THRESHOLD ∧
        pyabs ((cp - pp) / pp * 100) < PRICE_THRESHOLD) →
      processSymbol prev_prices curr_prices funding_rates prev_oi curr_oi s = .ok none) ∧
    ((∃ r, processSymbol prev_prices curr_prices funding_rates prev_oi curr_oi s =
        .ok (some r)) ↔
      ((co - po) / po * 100 > OI_THRESHOLD ∧
        pyabs ((cp - pp) / pp * 100) < PRICE_THRESHOLD)) := by
  have key := processSymbol_eq_ite prev_prices curr_prices funding_rates prev_oi curr_oi
    hpp hcp hpo hco hppz
  refine ⟨fun hth => ?_, fun hth => ?_, ?_⟩
  · rw [key, if_pos hth]
  · rw [key, if_neg hth]
  · rw [key]
    by_cases hth : (co - po) / po * 100 > OI_THRESHOLD ∧
        pyabs ((cp - pp) / pp * 100) < PRICE_THRESHOLD
    · simp [if_pos hth, hth]
    · simp [if_neg hth, hth]

/-- C1 witness: the spec §8 scenario.  BTCUSDT moves from price 100, open
interest 1000 to price 100.5, open interest 1060: +6% open interest and
+0.5% price pass both thresholds and the record is emitted. -/
theorem detector_formulas_and_emission_witness :
    processSymbol exPrevPrices exCurrPrices exFunding exPrevOi exCurrOi "BTCUSDT" =
      .ok (some ⟨"BTCUSDT", ((1060 : ℚ) - 1000) / 1000 * 100,
        ((201/2 : ℚ) - 100) / 100 * 100, 1/10000,
        classifyDirection (((201/2 : ℚ) - 100) / 100 * 100)⟩) :=
  (detector_formulas_and_emission exPrevPrices exCurrPrices exFunding exPrevOi exCurrOi
      "BTCUSDT" 100 (201/2) 1000 1060 (by decide) (by decide) (by decide) (by decide)
      (by decide)).1 (by decide)

/-- C2: every emitted record's direction is the pure function
`classifyDirection` of its `priceChangePct`, with exclusive boundaries at
`±0.3`: strictly above `0.3` is bullish, strictly below `-0.3` is bearish,
and everything in between — including exactly `0.3` and `-0.3` — is flat. -/
theorem direction_classification
    (prev_prices curr_prices funding_rates : List (Sym × ℚ))
    (prev_oi curr_oi : List (Sym × Option ℚ)) (s : Sym) (r : AnomalyRecord)
    (h : processSymbol prev_prices curr_prices funding_rates prev_oi curr_oi s =
      .ok (some r)) :
    r.direction = classifyDirection r.priceChangePct ∧
    (r.priceChangePct > 3/10 → r.direction = .bullish) ∧
    (r.priceChangePct < -(3/10) → r.direction = .bearish) ∧
    (-(3/10) ≤ r.priceChangePct → r.priceChangePct ≤ 3/10 → r.direction = .flat) ∧
    classifyDirection (3/10) = .flat ∧ classifyDirection (-(3/10)) = .flat := by
  have hdir : r.direction = classifyDirection r.priceChangePct := by
    unfold processSymbol at h
    cases hpp : prev_prices.lookup s with
    | none => rw [hpp] at h; exact absurd h (by simp)
    | some pp =>
    rw [hpp] at h
    cases hcp : curr_prices.lookup s with
    | none => rw [hcp] at h; exact absurd h (by simp)
    | some cp =>
    rw [hcp] at h
    cases hpo : oiTruthy prev_oi s with
    | none => rw [hpo] at h; exact absurd h (by simp)
    | some po =>
    rw [hpo] at h
    cases hco : oiTruthy curr_oi s with
    | none => rw [hco] at h; exact absurd h (by simp)
    | some co =>
    rw [hco] at h
    dsimp only at h
    cases hq1 : pydiv (co - po) po with
    | error e => rw [hq1] at h; exact absurd h (by simp)
    | ok q1 =>
    rw [hq1] at h
    dsimp only at h
    cases hq2 : pydiv (cp - pp) pp with
    | error e => rw [hq2] at h; exact absurd h (by simp)
    | ok q2 =>
    rw [hq2] at h
    dsimp only at h
    by_cases hth : q1 * 100 > OI_THRESHOLD ∧ pyabs (q2 * 100) < PRICE_THRESHOLD
    · rw [if_pos hth] at h
      rw [← Option.some.inj (Except.ok.inj h)]
    · rw [if_neg hth] at h
      exact absurd h (by simp)
  refine ⟨hdir, fun hb => ?_, fun hb => ?_, fun hl hr2 => ?_, by decide, by decide⟩
  · rw [hdir]; unfold classifyDirection; rw [if_pos hb]
  · rw [hdir]; unfold classifyDirection
    rw [if_neg (by linarith : ¬ r.priceChangePct > 3/10), if_pos hb]
  · rw [hdir]; unfold classifyDirection
    rw [if_neg (by linarith : ¬ r.priceChangePct > 3/10),
      if_neg (by linarith : ¬ r.priceChangePct < -(3/10))]

/-- C2 witness: the record emitted for BTCUSDT in the spec §8 scenario has
`priceChangePct = 0.5 > 0.3` and its direction is bullish. -/
theorem direction_classification_witness :
    exRecord.direction = classifyDirection exRecord.priceChangePct ∧
    exRecord.direction = Direction.bullish := by
  have h := direction_classification exPrevPrices exCurrPrices exFunding exPrevOi exCurrOi
    "BTCUSDT" exRecord (by decide)
  exact ⟨h.1, h.2.1 (by decide)⟩

/-- C3: a symbol whose price is absent from either price mapping, or whose
open interest is absent (missing key or `None`) in either snapshot, is
skipped without error and yields no `AnomalyRecord`, whatever the other
mappings hold. -/
theorem missing_data_yields_no_record
    (prev_prices curr_prices funding_rates : List (Sym × ℚ))
    (prev_oi curr_oi : List (Sym × Option ℚ)) (s : Sym)
    (h : prev_prices.lookup s = none ∨ curr_prices.lookup s = none ∨
      oiGet prev_oi s = none ∨ oiGet curr_oi s = none) :
    processSymbol prev_prices curr_prices funding_rates prev_oi curr_oi s = .ok none := by
  unfold processSymbol
  rcases h with h | h | h | h
  · rw [h]
  · rw [h]; cases prev_prices.lookup s <;> rfl
  · rw [oiTruthy_eq_none h]
    cases prev_prices.lookup s <;> cases curr_prices.lookup s <;> rfl
  · rw [oiTruthy_eq_none h]
    cases prev_prices.lookup s <;> cases curr_prices.lookup s <;>
      cases oiTruthy prev_oi s <;> rfl

/-- C3 witness: a symbol absent from every mapping is skipped. -/
theorem missing_data_yields_no_record_witness :
    processSymbol exPrevPrices exCurrPrices exFunding exPrevOi exCurrOi "XRPUSDT" =
      .ok none :=
  missing_data_yields_no_record exPrevPrices exCurrPrices exFunding exPrevOi exCurrOi
    "XRPUSDT" (Or.inl (by decide))

/-- C4: a symbol whose previous open interest is exactly `0` does not make
the `oiChangePct` division raise: the truthiness guard of line 114 skips it
(`.ok none`, no error), and dropping it from the head of the loop leaves
the processing of all remaining symbols unchanged. -/
theorem zero_prev_oi_skipped
    (prev_prices curr_prices funding_rates : List (Sym × ℚ))
    (prev_oi curr_oi : List (Sym × Option ℚ)) (s : Sym)
    (h : prev_oi.lookup s = some (some 0)) :
    processSymbol prev_prices curr_prices funding_rates prev_oi curr_oi s = .ok none ∧
    ∀ acc rest,
      detectFrom prev_prices curr_prices funding_rates prev_oi curr_oi acc (s :: rest) =
        detectFrom prev_prices curr_prices funding_rates prev_oi curr_oi acc rest := by
  have htr : oiTruthy prev_oi s = none := by
    unfold oiTruthy oiGet
    rw [h]
    rfl
  have hskip : processSymbol prev_prices curr_prices funding_rates prev_oi curr_oi s =
      .ok none := by
    unfold processSymbol
    rw [htr]
    cases prev_prices.lookup s <;> cases curr_prices.lookup s <;> rfl
  refine ⟨hskip, fun acc rest => ?_⟩
  simp only [detectFrom, hskip]

/-- C4 witness: a symbol listed with open interest exactly `0` in the start
snapshot is skipped and the rest of the loop is unaffected. -/
theorem zero_prev_oi_skipped_witness :
    processSymbol [("ZZZUSDT", 10)] [("ZZZUSDT", 11)] [] [("ZZZUSDT", some 0)]
      [("ZZZUSDT", some 5)] "ZZZUSDT" = .ok none ∧
    detectFrom [("ZZZUSDT", 10)] [("ZZZUSDT", 11)] [] [("ZZZUSDT", some 0)]
      [("ZZZUSDT", some 5)] [] ["ZZZUSDT"] =
      detectFrom [("ZZZUSDT", 10)] [("ZZZUSDT", 11)] [] [("ZZZUSDT", some 0)]
        [("ZZZUSDT", some 5)] [] [] := by
  have h := zero_prev_oi_skipped [("ZZZUSDT", 10)] [("ZZZUSDT", 11)] []
    [("ZZZUSDT", some 0)] [("ZZZUSDT", some 5)] "ZZZUSDT" (by decide)
  exact ⟨h.1, h.2 [] []⟩

/-! ## Claims about persistence, the collector and the dispatcher -/

/-- C5 counterexample: in a cycle where BTCUSDT has a valid price and a
valid open interest in the end snapshot (so the claim requires a row tagged
`'end'`), the cycle's appended rows contain no `'end'`-tagged row at all —
only the start snapshot is persisted (src/main.py lines 101-105 run once,
before the sleep; nothing is saved after the end snapshot). -/
theorem end_snapshot_not_persisted :
    (exCurrPrices.lookup "BTCUSDT").isSome = true ∧
    (oiTruthy exCurrOi "BTCUSDT").isSome = true ∧
    ((runCycle exSymbols exPrevPrices exPrevOi exFunding exCurrPrices exCurrOi
        "t0").savedRows.filter (fun r => r.phase == "end")) = [] ∧
    (runCycle exSymbols exPrevPrices exPrevOi exFunding exCurrPrices exCurrOi
        "t0").savedRows ≠ [] := by
  decide

/-- C5 (amended): only the start snapshot is persisted.  After the start
snapshot, one row per symbol that has a price and a truthy (non-absent,
non-zero) open interest in the start mappings is appended, tagged with the
start timestamp and phase `'start'`; every appended row carries those start
values, and no row for the end snapshot is ever appended. -/
theorem only_start_snapshot_persisted
    (symbols : List Sym) (prev_prices : List (Sym × ℚ))
    (prev_oi : List (Sym × Option ℚ)) (funding_rates : List (Sym × ℚ))
    (curr_prices : List (Sym × ℚ)) (curr_oi : List (Sym × Option ℚ))
    (start_time : String) :
    (runCycle symbols prev_prices prev_oi funding_rates curr_prices curr_oi
        start_time).savedRows =
      data_start symbols prev_prices prev_oi funding_rates start_time ∧
    (∀ r ∈ (runCycle symbols prev_prices prev_oi funding_rates curr_prices curr_oi
        start_time).savedRows,
      r.phase = "start" ∧ r.timestamp = start_time ∧
      prev_prices.lookup r.symbol = some r.price ∧
      oiTruthy prev_oi r.symbol = some r.oi ∧
      r.funding = (funding_rates.lookup r.symbol).getD 0) ∧
    (∀ s, (∃ r ∈ (runCycle symbols prev_prices prev_oi funding_rates curr_prices
        curr_oi start_time).savedRows, r.symbol = s) ↔
      s ∈ symbols ∧ (prev_prices.lookup s).isSome = true ∧
        (oiTruthy prev_oi s).isSome = true) := by
  have hrows : (runCycle symbols prev_prices prev_oi funding_rates curr_prices curr_oi
      start_time).savedRows =
      data_start symbols prev_prices prev_oi funding_rates start_time := by
    unfold runCycle
    cases hd : detect symbols prev_prices curr_prices funding_rates prev_oi curr_oi <;>
      rfl
  refine ⟨hrows, ?_, ?_⟩
  · rw [hrows]
    intro r hr
    rcases List.mem_map.1 hr with ⟨s, hsf, rfl⟩
    rcases List.mem_filter.1 hsf with ⟨hsym, hcond⟩
    rw [Bool.and_eq_true] at hcond
    rcases hcond with ⟨h1, h2⟩
    rcases Option.isSome_iff_exists.1 h1 with ⟨v, hv⟩
    rcases Option.isSome_iff_exists.1 h2 with ⟨w, hw⟩
    exact ⟨rfl, rfl, by rw [hv]; rfl, by rw [hw]; rfl, rfl⟩
  · intro s
    rw [hrows]
    constructor
    · rintro ⟨r, hr, hrs⟩
      rcases List.mem_map.1 hr with ⟨t, htf, rfl⟩
      rcases List.mem_filter.1 htf with ⟨hsym, hcond⟩
      rw [Bool.and_eq_true] at hcond
      rcases hcond with ⟨h1, h2⟩
      have hts : t = s := hrs
      subst hts
      exact ⟨hsym, h1, h2⟩
    · rintro ⟨hsym, h1, h2⟩
      refine ⟨⟨s, (prev_prices.lookup s).getD 0, (oiTruthy prev_oi s).getD 0,
        (funding_rates.lookup s).getD 0, "start", start_time⟩, ?_, rfl⟩
      exact List.mem_map.2
        ⟨s, List.mem_filter.2 ⟨hsym, by rw [Bool.and_eq_true]; exact ⟨h1, h2⟩⟩, rfl⟩

/-- C5 witness for the amended claim: in the sample cycle a row for BTCUSDT
is persisted (it has valid start data). -/
theorem only_start_snapshot_persisted_witness :
    ∃ r ∈ (runCycle exSymbols exPrevPrices exPrevOi exFunding exCurrPrices exCurrOi
      "t0").savedRows, r.symbol = "BTCUSDT" :=
  ((only_start_snapshot_persisted exSymbols exPrevPrices exPrevOi exFunding
      exCurrPrices exCurrOi "t0").2.2 "BTCUSDT").mpr
    ⟨by decide, by decide, by decide⟩

/-- The counting invariant of the fan-out semaphore: outstanding fetches
plus free permits always equal the cap. -/
theorem collector_invariant (n : ℕ) (σ : CollectorState)
    (h : CollectorReachable n σ) : σ.fetching + σ.permits = MAX_CONCURRENT := by
  induction h with
  | init => rfl
  | step hr hs ih =>
    cases hs with
    | acquire hw hp =>
      simp only [MAX_CONCURRENT] at ih ⊢
      omega
    | release hf =>
      simp only [MAX_CONCURRENT] at ih ⊢
      omega

/-- C6: in every reachable state of the bounded open-interest fan-out —
whatever the number of symbols, e.g. 100 — at most `MAX_CONCURRENT = 15`
fetches are outstanding at once: the semaphore cap is a hard ceiling. -/
theorem concurrency_cap_never_exceeded (n : ℕ) (σ : CollectorState)
    (h : CollectorReachable n σ) : σ.fetching ≤ MAX_CONCURRENT := by
  have hinv := collector_invariant n σ h
  omega

/-- C6 witness: a reachable state of a 100-symbol fan-out (one task has
acquired the semaphore) obeys the cap. -/
theorem concurrency_cap_never_exceeded_witness :
    (⟨99, 1, 0, 14⟩ : CollectorState).fetching ≤ MAX_CONCURRENT :=
  concurrency_cap_never_exceeded 100 ⟨99, 1, 0, 14⟩
    (CollectorReachable.step CollectorReachable.init
      (CollectorStep.acquire (by decide) (by decide)))

/-- Every per-symbol fetch returns a pair keyed by its own symbol. -/
theorem fetch_open_interest_fst (oracle : Sym → OIFetch) (s : Sym) :
    (fetch_open_interest oracle s).1 = s := by
  unfold fetch_open_interest
  cases oracle s with
  | netError => rfl
  | response status oi =>
    dsimp only
    by_cases h200 : status = 200
    · rw [if_pos h200]; cases oi <;> rfl
    · rw [if_neg h200]

/-- The fan-in mapping answers every input symbol with that symbol's own
fetch result. -/
theorem lookup_get_all_open_interest (oracle : Sym → OIFetch) (symbols : List Sym)
    (s : Sym) (hs : s ∈ symbols) :
    (get_all_open_interest oracle symbols).lookup s =
      some (fetch_open_interest oracle s).2 := by
  induction symbols with
  | nil => cases hs
  | cons t rest ih =>
    unfold get_all_open_interest at ih ⊢
    rw [List.map_cons]
    have hpair : fetch_open_interest oracle t =
        (t, (fetch_open_interest oracle t).2) :=
      Prod.ext (fetch_open_interest_fst oracle t) rfl
    by_cases hts : s = t
    · subst hts
      rw [hpair]
      simp [List.lookup]
    · rcases List.mem_cons.1 hs with h | h
      · exact absurd h hts
      · rw [hpair]
        have hbeq : (s == t) = false := beq_eq_false_iff_ne.2 hts
        simp only [List.lookup, hbeq]
        exact ih h

/-- C7: the bounded collector is a full fan-in: the result has exactly one
entry per input symbol and covers every input symbol; a symbol whose call
fails (network error, non-200 status, malformed payload) resolves to
absent, and the result looked up for any other symbol is unchanged under
any change of that symbol's call outcome. -/
theorem collector_fan_in_totality (oracle : Sym → OIFetch) (symbols : List Sym)
    (s : Sym) (hs : s ∈ symbols) :
    (get_all_open_interest oracle symbols).length = symbols.length ∧
    (get_all_open_interest oracle symbols).lookup s =
      some (fetch_open_interest oracle s).2 ∧
    (fetchFailed (oracle s) → (fetch_open_interest oracle s).2 = none) ∧
    (∀ oracle2 : Sym → OIFetch, (∀ t, t ≠ s → oracle2 t = oracle t) →
      ∀ t, t ∈ symbols → t ≠ s →
        (get_all_open_interest oracle2 symbols).lookup t =
          (get_all_open_interest oracle symbols).lookup t) := by
  refine ⟨by simp [get_all_open_interest], lookup_get_all_open_interest oracle symbols s hs,
    ?_, ?_⟩
  · intro hf
    unfold fetch_open_interest
    cases ho : oracle s with
    | netError => rfl
    | response status oi =>
      unfold fetchFailed at hf
      rw [ho] at hf
      dsimp only at hf ⊢
      by_cases h200 : status = 200
      · rw [if_pos h200]
        rcases hf with h | h
        · exact absurd h200 h
        · rw [h]
      · rw [if_neg h200]
  · intro oracle2 hagree t htmem htne
    have heq : fetch_open_interest oracle2 t = fetch_open_interest oracle t := by
      unfold fetch_open_interest
      rw [hagree t htne]
    rw [lookup_get_all_open_interest oracle2 symbols t htmem,
      lookup_get_all_open_interest oracle symbols t htmem, heq]

/-- C7 witness: with BTCUSDT succeeding and ETHUSDT's call failing, the
fan-in still answers ETHUSDT — with absent. -/
theorem collector_fan_in_totality_witness :
    (get_all_open_interest exOracle exSymbols).lookup "ETHUSDT" = some none := by
  have h := collector_fan_in_totality exOracle exSymbols "ETHUSDT" (by decide)
  rw [h.2.1, h.2.2.1 (by decide)]

/-- C8: an empty anomaly sequence makes no outbound call; a non-empty one
makes exactly one call carrying the first `min n 10` records. -/
theorem alert_dispatcher_cap (records : List AnomalyRecord) :
    (records = [] → dispatch records = none) ∧
    (records ≠ [] →
      dispatch records = some (records.take 10) ∧
      (records.take 10).length = min records.length 10) := by
  constructor
  · intro h
    subst h
    rfl
  · intro h
    refine ⟨?_, by rw [List.length_take]; omega⟩
    unfold dispatch
    rw [if_neg (by simpa using h)]

/-- C8 witness: 15 records produce exactly the first 10 as embeds; 0
records produce no call. -/
theorem alert_dispatcher_cap_witness :
    dispatch (List.replicate 15 exRecord) = some (List.replicate 10 exRecord) ∧
    (List.replicate 10 exRecord).length = 10 ∧
    dispatch ([] : List AnomalyRecord) = none := by
  have h15 := (alert_dispatcher_cap (List.replicate 15 exRecord)).2 (by decide)
  have h0 := (alert_dispatcher_cap ([] : List AnomalyRecord)).1 rfl
  refine ⟨?_, by decide, h0⟩
  rw [h15.1]
  decide

/-! ## Claims about bulk-fetch failure and the zero-price crash -/

/-- C9 counterexample: on a non-success HTTP status (here 500) the bulk
funding-rate fetcher does not return an empty mapping — the function body
falls through without a `return` and yields Python `None`. -/
theorem funding_fetcher_non200_returns_none :
    get_funding_rates (.response 500 (some [])) = none ∧
    get_funding_rates (.response 500 (some [])) ≠ some [] ∧
    (500 : ℕ) ≠ 200 := by
  decide

/-- C9 (amended): the bulk price fetcher returns an empty mapping on any
failure (network error or a body that does not parse as a price list — it
never consults the HTTP status); the bulk funding-rate fetcher returns an
empty mapping on a network error or a malformed 200 payload, but on a
non-success HTTP status it returns `None` (no mapping at all) instead. -/
theorem bulk_fetchers_failure_behaviour :
    get_all_prices .netError = [] ∧
    (∀ status, get_all_prices (.response status none) = []) ∧
    get_funding_rates .netError = some [] ∧
    get_funding_rates (.response 200 none) = some [] ∧
    (∀ status body, status ≠ 200 → get_funding_rates (.response status body) = none) := by
  refine ⟨rfl, fun status => rfl, rfl, rfl, fun status body h => ?_⟩
  unfold get_funding_rates
  dsimp only
  rw [if_neg h]

/-- C9 witness: a 404 response leaves the funding fetcher with `None`,
while the price fetcher's failed parse yields the empty mapping. -/
theorem bulk_fetchers_failure_behaviour_witness :
    get_funding_rates (.response 404 (some [])) = none ∧
    get_all_prices (.response 404 none) = [] :=
  ⟨bulk_fetchers_failure_behaviour.2.2.2.2 404 (some []) (by decide),
   bulk_fetchers_failure_behaviour.2.1 404⟩

/-- A symbol whose per-symbol processing raises makes the whole detection
loop raise, wherever the symbol sits in the universe. -/
theorem detectFrom_error_of_mem
    (prev_prices curr_prices funding_rates : List (Sym × ℚ))
    (prev_oi curr_oi : List (Sym × Option ℚ)) (s : Sym)
    (herr : processSymbol prev_prices curr_prices funding_rates prev_oi curr_oi s =
      .error ()) :
    ∀ symbols : List Sym, s ∈ symbols → ∀ acc,
      detectFrom prev_prices curr_prices funding_rates prev_oi curr_oi acc symbols =
        .error () := by
  intro symbols
  induction symbols with
  | nil => intro hs; cases hs
  | cons t rest ih =>
    intro hs acc
    rcases List.mem_cons.1 hs with h | h
    · subst h
      simp only [detectFrom, herr]
    · cases hp : processSymbol prev_prices curr_prices funding_rates prev_oi curr_oi t with
      | error e =>
        cases e
        simp only [detectFrom, hp]
      | ok v =>
        cases v with
        | none =>
          simp only [detectFrom, hp]
          exact ih h acc
        | some r =>
          simp only [detectFrom, hp]
          exact ih h (acc ++ [r])

/-- C10: a symbol listed with previous price exactly `0` and truthy
(positive) open interest in both snapshots passes the line-114 guard — the
validity check tests only key membership for prices — so the
`priceChangePct` division raises; the error escapes the detection loop
(the whole `detect` pass errors, so no dispatch happens) and is caught only
by the scheduler's cycle-level handler, which backs off for
`ERROR_BACKOFF = 10` seconds. -/
theorem zero_prev_price_aborts_cycle
    (symbols : List Sym) (prev_prices : List (Sym × ℚ))
    (prev_oi : List (Sym × Option ℚ)) (funding_rates : List (Sym × ℚ))
    (curr_prices : List (Sym × ℚ)) (curr_oi : List (Sym × Option ℚ))
    (s : Sym) (cp po co : ℚ) (start_time : String)
    (hs : s ∈ symbols)
    (hpp : prev_prices.lookup s = some 0)
    (hcp : curr_prices.lookup s = some cp)
    (hpo : oiTruthy prev_oi s = some po) (hpo_pos : 0 < po)
    (hco : oiTruthy curr_oi s = some co) (hco_pos : 0 < co) :
    processSymbol prev_prices curr_prices funding_rates prev_oi curr_oi s = .error () ∧
    detect symbols prev_prices curr_prices funding_rates prev_oi curr_oi = .error () ∧
    schedulerStep (runCycle symbols prev_prices prev_oi funding_rates curr_prices
      curr_oi start_time) = .errorBackoff ERROR_BACKOFF := by
  have herr : processSymbol prev_prices curr_prices funding_rates prev_oi curr_oi s =
      .error () := by
    unfold processSymbol
    rw [hpp, hcp, hpo, hco]
    dsimp only
    unfold pydiv
    rw [if_neg (ne_of_gt hpo_pos), if_pos rfl]
  have hdet : detect symbols prev_prices curr_prices funding_rates prev_oi curr_oi =
      .error () := by
    unfold detect
    exact detectFrom_error_of_mem prev_prices curr_prices funding_rates prev_oi curr_oi
      s herr symbols hs []
  refine ⟨herr, hdet, ?_⟩
  unfold runCycle
  rw [hdet]
  rfl

/-- C10 witness: BTCUSDT listed at start price `0.0` with open interest
1000 → 1060 crashes the sample cycle into the 10-second backoff. -/
theorem zero_prev_price_aborts_cycle_witness :
    schedulerStep (runCycle exSymbols exPrevPricesZero exPrevOi exFunding exCurrPrices
      exCurrOi "t0") = SchedOutcome.errorBackoff ERROR_BACKOFF :=
  (zero_prev_price_aborts_cycle exSymbols exPrevPricesZero exPrevOi exFunding
    exCurrPrices exCurrOi "BTCUSDT" (201/2) 1000 1060 "t0" (by decide) (by decide)
    (by decide) (by decide) (by decide) (by decide) (by decide)).2.2

end BNOI
